import Mathlib

/-!
Shallow embedding of the Confidential Space vTPM attestation modules of
`flare_ai_defai` (files `attestation/vtpm_attestation.py` and
`attestation/vtpm_validation.py`).

Python exceptions are modelled by the inductive `PyErr`; a function that can
raise returns `Except PyErr _`.  Library calls that touch the network, the
local Unix socket, X.509 parsing or RSA signature checking are modelled by
explicit environment records (`SockEnv`, `OidcEnv`, `PkiEnv`) whose fields
carry the outcome the library call would have produced; the control flow
around those calls is translated statement by statement from the source.
Observable side effects (HTTP fetches, socket operations, certificate
extraction from the token header) are reported in an explicit effect list so
that "happens before" and "never happens" properties can be stated.
-/

/-- Model of the Python exception values the two modules can raise.  The
first four constructors are the classes of `vtpm_validation.py` that derive
from `VtpmValidationError`; `vtpmAttestationError` is the error class of
`vtpm_attestation.py`; `httpError` models `requests.exceptions.HTTPError`;
`keyError` models the builtin `KeyError`; `osError` models socket/transport
errors; `cryptoInvalidKey` and `jwtInvalidToken` model
`cryptography.exceptions.InvalidKey` and `jwt.InvalidTokenError` as raised by
the libraries inside the PKI try-block. -/
inductive PyErr where
  | vtpmValidationError (msg : String)
  | invalidCertificateChainError (msg : String)
  | certificateParsingError (msg : String)
  | signatureValidationError (msg : String)
  | vtpmAttestationError (msg : String)
  | httpError (msg : String)
  | keyError (key : String)
  | osError (msg : String)
  | cryptoInvalidKey (msg : String)
  | jwtInvalidToken (msg : String)
deriving Repr, DecidableEq

/-- Whether the exception is an instance of the Python class
`VtpmValidationError` (the base class of the domain errors of the
validation module).  `httpError`, `keyError` and `osError` are unrelated classes. -/
def is_vtpm_validation_error : PyErr → Bool
  | .vtpmValidationError _ => true
  | .invalidCertificateChainError _ => true
  | .certificateParsingError _ => true
  | .signatureValidationError _ => true
  | _ => false

/-- Python `str(e)` on a modelled exception: the message it was built with. -/
def str_of_err : PyErr → String
  | .vtpmValidationError m => m
  | .invalidCertificateChainError m => m
  | .certificateParsingError m => m
  | .signatureValidationError m => m
  | .vtpmAttestationError m => m
  | .httpError m => m
  | .keyError k => k
  | .osError m => m
  | .cryptoInvalidKey m => m
  | .jwtInvalidToken m => m

/-- Python `str(x)` for an optional string header value: `None` prints as
the word `None`, a string prints as itself. -/
def py_str_opt : Option String → String
  | none => "None"
  | some s => s

/-! ## Attestation client (`vtpm_attestation.py`) -/

/-- Lower bound, in bytes, on a nonce (`min_byte_len` in
`Vtpm._check_nonce_length`). -/
def min_byte_len : Nat := 10

/-- Upper bound, in bytes, on a nonce (`max_byte_len` in
`Vtpm._check_nonce_length`). -/
def max_byte_len : Nat := 74

/-- `Vtpm._check_nonce_length`: walk the nonce list; the first nonce whose
UTF-8 byte length is below `min_byte_len` or above `max_byte_len` raises
`VtpmAttestationError`.  The message is exactly the first f-string of the
source, which quotes the nonce and names the lower bound only; the second
f-string on the following source line is a bare expression statement and
contributes nothing to `msg`, so the upper bound never reaches the
message. -/
def check_nonce_length : List String → Except PyErr Unit
  | [] => .ok ()
  | nonce :: rest =>
    let byte_len := nonce.utf8ByteSize
    if byte_len < min_byte_len || byte_len > max_byte_len then
      .error (.vtpmAttestationError
        ("Nonce \x27" ++ nonce ++ "\x27 must be between "
          ++ toString min_byte_len ++ " bytes"))
    else check_nonce_length rest

/-- Observable side effects of one `Vtpm.get_token` call. -/
inductive AttEffect where
  | socketOpen
  | socketConnect (path : String)
  | httpRequest (url audience token_type : String) (nonces : List String)
  | getResponse
  | closeConn
deriving Repr, DecidableEq

/-- Environment of one non-simulated `get_token` call: whether the socket
`connect` raises, whether sending the request / reading the response raises,
and otherwise the HTTP status, reason and body the service returns. -/
structure SockEnv where
  connect_error : Option String
  request_error : Option String
  status : Nat
  reason : String
  body : String
deriving Repr, DecidableEq

/-- The `Vtpm` client object.  `sim_token` models the module constant
`SIM_TOKEN`, read once from `simulated_token.txt` at import time. -/
structure Vtpm where
  url : String
  unix_socket_path : String
  simulate : Bool
  sim_token : String
deriving Repr, DecidableEq

/-- `Vtpm.get_token`, translated statement by statement.  Returns the
result together with the list of socket/HTTP effects performed.  Note that
the source calls `conn.close()` only after a 200 response has been read:
the non-200 branch raises and the transport-error branches propagate
without any `finally`, so no `closeConn` effect is emitted there. -/
def get_token (self : Vtpm) (env : SockEnv) (nonces : List String)
    (audience : String) (token_type : String) :
    Except PyErr String × List AttEffect :=
  match check_nonce_length nonces with
  | .error e => (.error e, [])
  | .ok _ =>
    if self.simulate then
      (.ok self.sim_token, [])
    else
      match env.connect_error with
      | some m =>
        (.error (.osError m), [.socketOpen, .socketConnect self.unix_socket_path])
      | none =>
        match env.request_error with
        | some m =>
          (.error (.osError m),
            [.socketOpen, .socketConnect self.unix_socket_path,
              .httpRequest self.url audience token_type nonces])
        | none =>
          if env.status ≠ 200 then
            (.error (.vtpmAttestationError
                ("Failed to get attestation response: "
                  ++ toString env.status ++ " " ++ env.reason)),
              [.socketOpen, .socketConnect self.unix_socket_path,
                .httpRequest self.url audience token_type nonces, .getResponse])
          else
            (.ok env.body,
              [.socketOpen, .socketConnect self.unix_socket_path,
                .httpRequest self.url audience token_type nonces, .getResponse,
                .closeConn])

/-! ## Token validation (`vtpm_validation.py`) -/

/-- Constant `ALGO`: the pinned JWT signing algorithm. -/
def ALGO : String := "RS256"

/-- Constant `CERT_HASH_ALGO`: the pinned certificate hash algorithm. -/
def CERT_HASH_ALGO : String := "sha256"

/-- Constant `CERT_COUNT`: expected number of certificates in the chain. -/
def CERT_COUNT : Nat := 3

/-- Constant `CERT_FINGERPRINT`: expected SHA-1 fingerprint of the root
certificate, as colon-separated uppercase hex. -/
def CERT_FINGERPRINT : String :=
  "B9:51:20:74:2C:24:E3:AA:34:04:2E:1C:3B:A3:AA:D2:8B:21:23:21"

/-- Model of an `x509.Certificate` as the validator reads it: the validity
window (UTC seconds), the name of the signature hash algorithm (`none`
models a falsy `signature_hash_algorithm`), whether `public_key()` is an
RSA key, the `tbs_certificate_bytes`, and the SHA-1 fingerprint bytes the
`cryptography` library computes for `fingerprint(hashes.SHA1())`. -/
structure Certificate where
  not_valid_before_utc : Int
  not_valid_after_utc : Int
  signature_hash_algorithm : Option String
  public_key_is_rsa : Bool
  tbs_certificate_bytes : List Nat
  sha1_fingerprint : List Nat
deriving Repr, DecidableEq

/-- Immutable container for the complete certificate chain
(dataclass `PKICertificates`). -/
structure PKICertificates where
  leaf_cert : Certificate
  intermediate_cert : Certificate
  root_cert : Certificate
deriving Repr, DecidableEq

/-- Outcome of `VtpmValidation._decode_der_certificate` on one `x5c` entry:
either the parsed certificate or the message of the underlying decode
exception (the helper wraps any failure in `CertificateParsingError`,
prefixing the underlying message with the words "Failed to decode
certificate: "). -/
inductive CertParse where
  | ok (cert : Certificate)
  | error (msg : String)
deriving Repr, DecidableEq

/-- The unverified JWT header as `jwt.get_unverified_header` returns it:
the `alg` and `kid` entries (absent entries are `none`) and the `x5c`
entry, each element carrying its DER-decode outcome. -/
structure JwtHeader where
  alg : Option String
  kid : Option String
  x5c : Option (List CertParse)
deriving Repr, DecidableEq

/-- A JSON Web Key of the fetched key set: its optional `kid` and the
base64url `n` and `e` fields (inert here; `_jwk_to_rsa_key` consumes
them opaquely). -/
structure Jwk where
  kid : Option String
  n : String
  e : String
deriving Repr, DecidableEq

/-- Verified token claims: a JSON object modelled as an association list. -/
abbrev Claims := List (String × String)

/-- Outcome of the `jwt.decode` call of `_decode_and_validate_oidc`.
`jwt.ExpiredSignatureError` is matched before its superclass
`jwt.InvalidTokenError` in the source, so the two are separate cases. -/
inductive OidcDecode where
  | ok (claims : Claims)
  | expiredSignatureError (msg : String)
  | invalidTokenError (msg : String)
  | otherError (msg : String)
deriving Repr, DecidableEq

/-- Outcome of the `jwt.decode` call of `_decode_and_validate_pki`. -/
inductive PkiDecode where
  | ok (claims : Claims)
  | invalidKeyError (msg : String)
  | invalidTokenError (msg : String)
deriving Repr, DecidableEq

/-- Environment of the OIDC path: status of the `openid-configuration`
fetch, the `jwks_uri` of its JSON body, status and `keys` of the JWKS
fetch, and the signature-check outcome. -/
structure OidcEnv where
  well_known_status : Nat
  jwks_uri : String
  jwks_status : Nat
  jwks_keys : List Jwk
  jwt_decode : OidcDecode
deriving Repr, DecidableEq

/-- Environment of the PKI path: status of the root-certificate fetch, the
certificate parsed from its PEM body, the outcome of the OpenSSL chain
verification (`none` = success, `some m` = `OpenSSLError` with message
`m`), and the signature-check outcome. -/
structure PkiEnv where
  pki_status : Nat
  fetched_root_cert : Certificate
  chain_verify_error : Option String
  jwt_decode : PkiDecode
deriving Repr, DecidableEq

/-- Environment of one `validate_token` call. -/
structure Env where
  oidc : OidcEnv
  pki : PkiEnv
deriving Repr, DecidableEq

/-- Constructor arguments of `VtpmValidation`. -/
structure VtpmValidationCfg where
  expected_issuer : String
  oidc_endpoint : String
  pki_endpoint : String
deriving Repr, DecidableEq

/-- The default `VtpmValidation()` configuration. -/
def defaultCfg : VtpmValidationCfg :=
  { expected_issuer := "https://confidentialcomputing.googleapis.com"
    oidc_endpoint := "/.well-known/openid-configuration"
    pki_endpoint := "/.well-known/confidential_space_root.crt" }

/-- Observable effects of one `validate_token` call: HTTP fetches and the
extraction of the certificates embedded in the token header. -/
inductive VEffect where
  | httpGet (url : String)
  | extractCerts
deriving Repr, DecidableEq

/-- One lowercase hex digit, as Python `format(_, "x")` prints it. -/
def hex_char (n : Nat) : Char :=
  if n < 10 then Char.ofNat (48 + n) else Char.ofNat (87 + n)

/-- Python `format(b, "02x")` for a byte value `b < 256`: two lowercase
hex digits. -/
def format02x (b : Nat) : String :=
  String.mk [hex_char (b / 16 % 16), hex_char (b % 16)]

/-- Python `str.upper` on one character: ASCII lowercase letters are
shifted to uppercase, everything else (digits, colon) is unchanged. -/
def py_char_upper (c : Char) : Char :=
  if 97 ≤ c.toNat ∧ c.toNat ≤ 122 then Char.ofNat (c.toNat - 32) else c

/-- Python `str.upper` over a whole string. -/
def py_str_upper (s : String) : String :=
  String.mk (s.data.map py_char_upper)

/-- The fingerprint string of `_decode_and_validate_pki`: join the byte
values formatted as two lowercase hex digits with colons, then uppercase
the result. -/
def colon_hex_upper (bs : List Nat) : String :=
  py_str_upper (String.intercalate ":" (bs.map format02x))

/-- SHA-256 digests are modelled as the byte strings themselves: the code
only ever compares two digests for equality, and equal inputs give equal
digests while distinct inputs are assumed collision-free. -/
def sha256_digest (bs : List Nat) : List Nat := bs

/-- `VtpmValidation._is_certificate_valid`: the validity window of the
certificate contains the current instant. -/
def is_certificate_valid (cert : Certificate) (current_time : Int) : Bool :=
  cert.not_valid_before_utc ≤ current_time
    && current_time ≤ cert.not_valid_after_utc

/-- `VtpmValidation._check_certificate_validity`: check leaf, intermediate
and root in that order against the current instant; the first failure
raises `InvalidCertificateChainError` naming the certificate. -/
def check_certificate_validity (now : Int) (certificates : PKICertificates) :
    Except PyErr Unit :=
  if !is_certificate_valid certificates.leaf_cert now then
    .error (.invalidCertificateChainError "Leaf certificate is not valid")
  else if !is_certificate_valid certificates.intermediate_cert now then
    .error (.invalidCertificateChainError "Intermediate certificate is not valid")
  else if !is_certificate_valid certificates.root_cert now then
    .error (.invalidCertificateChainError "Root certificate is not valid")
  else .ok ()

/-- `VtpmValidation._validate_leaf_certificate`: the leaf must declare a
signature hash algorithm, it must be `CERT_HASH_ALGO`, and the public key
must be RSA.  The second message is only the first f-string of the source
(the following f-string line is a bare expression statement). -/
def validate_leaf_certificate (leaf_cert : Certificate) : Except PyErr Unit :=
  match leaf_cert.signature_hash_algorithm with
  | none => .error (.signatureValidationError "No signature hash algorithm found")
  | some nm =>
    if nm ≠ CERT_HASH_ALGO then
      .error (.signatureValidationError "Invalid signature algorithm: ")
    else if !leaf_cert.public_key_is_rsa then
      .error (.signatureValidationError "Leaf certificate must use RSA public key")
    else .ok ()

/-- `VtpmValidation._compare_root_certificates`: compare the SHA-256
digests of the `tbs_certificate_bytes` of the fetched root and the
token-embedded root. -/
def compare_root_certificates (token_root_cert fetched_root_cert : Certificate) :
    Except PyErr Unit :=
  if sha256_digest fetched_root_cert.tbs_certificate_bytes
      ≠ sha256_digest token_root_cert.tbs_certificate_bytes then
    .error (.vtpmValidationError "Root certificate fingerprint mismatch")
  else .ok ()

/-- `VtpmValidation._verify_certificate_chain`: an `OpenSSLError` from the
store verification is wrapped in `InvalidCertificateChainError`. -/
def verify_certificate_chain (chain_verify_error : Option String) :
    Except PyErr Unit :=
  match chain_verify_error with
  | some m =>
    .error (.invalidCertificateChainError
      ("Certificate chain verification failed: " ++ m))
  | none => .ok ()

/-- `VtpmValidation._extract_and_validate_certificates`: the `x5c` header
must be present, truthy and of length `CERT_COUNT`; each entry is decoded
in order (`_decode_der_certificate` raises `CertificateParsingError` on the
first failing entry) and the three certificates are packed as
{leaf, intermediate, root}. -/
def extract_and_validate_certificates (headers : JwtHeader) :
    Except PyErr PKICertificates :=
  match headers.x5c with
  | none => .error (.vtpmValidationError "Invalid x5c certificates in header")
  | some x5c_headers =>
    if x5c_headers.isEmpty || x5c_headers.length ≠ CERT_COUNT then
      .error (.vtpmValidationError "Invalid x5c certificates in header")
    else
      match x5c_headers with
      | [CertParse.ok c0, CertParse.ok c1, CertParse.ok c2] =>
        .ok ⟨c0, c1, c2⟩
      | CertParse.error m :: _ =>
        .error (.certificateParsingError ("Failed to decode certificate: " ++ m))
      | _ :: CertParse.error m :: _ =>
        .error (.certificateParsingError ("Failed to decode certificate: " ++ m))
      | _ :: _ :: CertParse.error m :: _ =>
        .error (.certificateParsingError ("Failed to decode certificate: " ++ m))
      | _ => .error (.vtpmValidationError "Invalid x5c certificates in header")

/-- Body of the `try:` block of `_decode_and_validate_pki`: extract the
chain, validate the leaf, compare the roots, check the validity windows,
verify the chain of trust, then check the token signature with the leaf
public key.  Errors escape raw; the except-clauses are applied by
`pki_wrap`. -/
def pki_try_body (env : PkiEnv) (now : Int) (unverified_header : JwtHeader) :
    Except PyErr Claims := do
  let certs ← extract_and_validate_certificates unverified_header
  validate_leaf_certificate certs.leaf_cert
  compare_root_certificates certs.root_cert env.fetched_root_cert
  check_certificate_validity now certs
  verify_certificate_chain env.chain_verify_error
  match env.jwt_decode with
  | .ok claims => pure claims
  | .invalidKeyError m => throw (.cryptoInvalidKey m)
  | .invalidTokenError m => throw (.jwtInvalidToken m)

/-- The except-clauses of `_decode_and_validate_pki`:
`except (InvalidKey, jwt.InvalidTokenError)` re-raises as a
`VtpmValidationError` whose message prefixes the caught message with
"Token signature validation failed: ", and the following
`except Exception` catches every other exception — including the
`InvalidCertificateChainError`, `CertificateParsingError` and
`SignatureValidationError` values raised inside the try-block itself — and
re-raises it as a `VtpmValidationError` whose message prefixes the caught
message with "Unexpected error during validation: ". -/
def pki_wrap : Except PyErr Claims → Except PyErr Claims
  | .ok claims => .ok claims
  | .error e =>
    match e with
    | .cryptoInvalidKey m =>
      .error (.vtpmValidationError ("Token signature validation failed: " ++ m))
    | .jwtInvalidToken m =>
      .error (.vtpmValidationError ("Token signature validation failed: " ++ m))
    | e =>
      .error (.vtpmValidationError
        ("Unexpected error during validation: " ++ str_of_err e))

/-- `VtpmValidation._decode_and_validate_pki`: fetch the root certificate
(`_get_well_known_file` raises `requests.exceptions.HTTPError` on a
non-200 status), compare its colon-hex-uppercase SHA-1 fingerprint against
`CERT_FINGERPRINT`, and only then enter the try-block that touches the
certificates of the token header.  The fingerprint-mismatch message is the
first f-string of the source only. -/
def decode_and_validate_pki (cfg : VtpmValidationCfg) (env : PkiEnv)
    (now : Int) (unverified_header : JwtHeader) :
    Except PyErr Claims × List VEffect :=
  if env.pki_status ≠ 200 then
    (.error (.httpError ("Failed to fetch well known file: "
        ++ toString env.pki_status)),
      [.httpGet (cfg.expected_issuer ++ cfg.pki_endpoint)])
  else
    let root_cert := env.fetched_root_cert
    let calculated_fingerprint := colon_hex_upper root_cert.sha1_fingerprint
    if calculated_fingerprint ≠ CERT_FINGERPRINT then
      (.error (.vtpmValidationError
          "Root certificate fingerprint does not match expected fingerprint."),
        [.httpGet (cfg.expected_issuer ++ cfg.pki_endpoint)])
    else
      (pki_wrap (pki_try_body env now unverified_header),
        [.httpGet (cfg.expected_issuer ++ cfg.pki_endpoint), .extractCerts])

/-- The key-scan loop of `_decode_and_validate_oidc`:
`for key in jwks["keys"]: if key.get("kid") == unverified_header["kid"]`.
The subscript `unverified_header["kid"]` is evaluated in the loop body, so
a header without `kid` raises `KeyError` on the first iteration — and only
if the key list is non-empty.  Returns the first matching key, `none` when
the loop completes without a match. -/
def find_rsa_key : List Jwk → Option String → Except PyErr (Option Jwk)
  | [], _ => .ok none
  | key :: rest, header_kid =>
    match header_kid with
    | none => .error (.keyError "kid")
    | some hk =>
      if key.kid = some hk then .ok (some key)
      else find_rsa_key rest (some hk)

/-- `VtpmValidation._decode_and_validate_oidc`: fetch the discovery
metadata and the JWKS (each raising `requests.exceptions.HTTPError` on a
non-200 status), scan the keys for the header `kid`, fail with
`VtpmValidationError` when no key matches, and otherwise map the
`jwt.decode` outcome through the except-clauses of the try-block. -/
def decode_and_validate_oidc (cfg : VtpmValidationCfg) (env : OidcEnv)
    (unverified_header : JwtHeader) : Except PyErr Claims × List VEffect :=
  if env.well_known_status ≠ 200 then
    (.error (.httpError ("Failed to fetch well known file: "
        ++ toString env.well_known_status)),
      [.httpGet (cfg.expected_issuer ++ cfg.oidc_endpoint)])
  else
    let effs := [VEffect.httpGet (cfg.expected_issuer ++ cfg.oidc_endpoint),
      VEffect.httpGet env.jwks_uri]
    if env.jwks_status ≠ 200 then
      (.error (.httpError ("Failed to fetch JWKS: " ++ toString env.jwks_status)),
        effs)
    else
      match find_rsa_key env.jwks_keys unverified_header.kid with
      | .error e => (.error e, effs)
      | .ok none =>
        (.error (.vtpmValidationError
            "Unable to find appropriate key id (kid) in header"), effs)
      | .ok (some _) =>
        match env.jwt_decode with
        | .ok claims => (.ok claims, effs)
        | .expiredSignatureError _ =>
          (.error (.signatureValidationError "Token has expired"), effs)
        | .invalidTokenError _ =>
          (.error (.vtpmValidationError "Token is invalid"), effs)
        | .otherError _ =>
          (.error (.vtpmValidationError "Unexpected error during validation"), effs)

/-- The validation scheme a token header selects. -/
inductive Scheme where
  | pki
  | oidc
deriving Repr, DecidableEq

/-- The dispatch test of `validate_token`:
`if unverified_header.get("x5c", None):` — Python truthiness, so an absent
`x5c`, or one whose value is the empty list, selects the OIDC scheme.  The
decision is a function of the header alone. -/
def token_scheme (unverified_header : JwtHeader) : Scheme :=
  match unverified_header.x5c with
  | some (_ :: _) => .pki
  | _ => .oidc

/-- `VtpmValidation.validate_token`: reject any header whose `alg` entry is
not `ALGO` (message: the first f-string of the source, ending in a comma
and a space, the second f-string line being a bare expression statement),
then dispatch on `token_scheme`. -/
def validate_token (cfg : VtpmValidationCfg) (env : Env) (now : Int)
    (unverified_header : JwtHeader) : Except PyErr Claims × List VEffect :=
  if unverified_header.alg ≠ some ALGO then
    (.error (.vtpmValidationError
        ("Invalid algorithm: got " ++ py_str_opt unverified_header.alg ++ ", ")),
      [])
  else
    match token_scheme unverified_header with
    | .pki => decode_and_validate_pki cfg env.pki now unverified_header
    | .oidc => decode_and_validate_oidc cfg env.oidc unverified_header

/-! ## Concrete fixtures used by the closed theorems and witnesses -/

/-- The bytes of `CERT_FINGERPRINT`. -/
def pinned_fingerprint_bytes : List Nat :=
  [0xB9, 0x51, 0x20, 0x74, 0x2C, 0x24, 0xE3, 0xAA, 0x34, 0x04,
    0x2E, 0x1C, 0x3B, 0xA3, 0xAA, 0xD2, 0x8B, 0x21, 0x23, 0x21]

/-- A well-formed certificate: sha256-signed, RSA key, valid on [0, 100]. -/
def cert_ok : Certificate :=
  { not_valid_before_utc := 0
    not_valid_after_utc := 100
    signature_hash_algorithm := some "sha256"
    public_key_is_rsa := true
    tbs_certificate_bytes := [1]
    sha1_fingerprint := [] }

/-- Like `cert_ok` but with a not-after instant in the past of 50. -/
def cert_expired : Certificate := { cert_ok with not_valid_after_utc := 10 }

/-- The fetched root certificate whose SHA-1 fingerprint is the pinned one
and whose TBS bytes agree with `cert_ok`. -/
def fetched_root_ok : Certificate :=
  { cert_ok with sha1_fingerprint := pinned_fingerprint_bytes }

/-- A fetched root certificate with a wrong SHA-1 fingerprint. -/
def fetched_root_bad : Certificate := { cert_ok with sha1_fingerprint := [0] }

/-- An OIDC environment where both fetches succeed and the key set is
empty. -/
def oidc_env_ok : OidcEnv :=
  { well_known_status := 200
    jwks_uri := "https://www.googleapis.com/oauth2/v3/certs"
    jwks_status := 200
    jwks_keys := []
    jwt_decode := .ok [] }

/-- A PKI environment where the root fetch succeeds with the pinned
fingerprint and chain verification would succeed. -/
def pki_env_ok : PkiEnv :=
  { pki_status := 200
    fetched_root_cert := fetched_root_ok
    chain_verify_error := none
    jwt_decode := .ok [] }

/-- Environment for the expired-intermediate scenario. -/
def env_c1 : Env := { oidc := oidc_env_ok, pki := pki_env_ok }

/-- PKI header whose chain parses: valid leaf, expired intermediate, root
matching the fetched root. -/
def header_c1 : JwtHeader :=
  { alg := some "RS256"
    kid := none
    x5c := some [.ok cert_ok, .ok cert_expired, .ok cert_ok] }

/-- Environment whose fetched root has a wrong fingerprint. -/
def env_c3 : Env :=
  { oidc := oidc_env_ok
    pki := { pki_env_ok with fetched_root_cert := fetched_root_bad } }

/-- A client in real (non-simulated) mode, with default constructor
arguments; `sim_token` models the module-level `SIM_TOKEN`. -/
def vtpm_real : Vtpm :=
  { url := "http://localhost/v1/token"
    unix_socket_path := "/run/container_launcher/teeserver.sock"
    simulate := false
    sim_token := "eyJhbGciOiJSUzI1NiJ9.sim.sig" }

/-- The same client in simulation mode. -/
def vtpm_sim : Vtpm := { vtpm_real with simulate := true }

/-- A socket environment where the service answers 500. -/
def sock_env_500 : SockEnv :=
  { connect_error := none
    request_error := none
    status := 500
    reason := "Internal Server Error"
    body := "" }

/-- A socket environment where the service answers 200 with a token. -/
def sock_env_ok : SockEnv :=
  { sock_env_500 with status := 200, reason := "OK", body := "tok" }

/-- An OIDC header with a key id and no x5c entry. -/
def header_oidc : JwtHeader :=
  { alg := some "RS256", kid := some "abc123", x5c := none }

/-- An OIDC header without a key id. -/
def header_no_kid : JwtHeader :=
  { alg := some "RS256", kid := none, x5c := none }

/-- A header that carries an x5c entry whose value is the empty list. -/
def header_empty_x5c : JwtHeader :=
  { alg := some "RS256", kid := none, x5c := some [] }

/-- Environment whose discovery-metadata fetch answers 404. -/
def env_c7 : Env :=
  { oidc := { oidc_env_ok with well_known_status := 404 }, pki := pki_env_ok }

/-- Environment whose key set holds a single key with a different key id. -/
def env_c8 : Env :=
  { oidc := { oidc_env_ok with
      jwks_keys := [{ kid := some "other-kid", n := "AQAB", e := "AQAB" }] }
    pki := pki_env_ok }

/-- Environment whose key set is non-empty (used with a header lacking a
kid entry). -/
def env_c10 : Env :=
  { oidc := { oidc_env_ok with
      jwks_keys := [{ kid := some "some-kid", n := "AA", e := "AQAB" }] }
    pki := pki_env_ok }

/-- A header declaring a non-pinned signing algorithm. -/
def header_hs256 : JwtHeader :=
  { alg := some "HS256", kid := none, x5c := none }

/-! ## Helper lemmas -/

/-- The nonce check accepts exactly when every nonce has UTF-8 byte length
between `min_byte_len` and `max_byte_len` inclusive. -/
theorem check_nonce_length_ok_iff (nonces : List String) :
    check_nonce_length nonces = .ok () ↔
      ∀ n ∈ nonces,
        min_byte_len ≤ n.utf8ByteSize ∧ n.utf8ByteSize ≤ max_byte_len := by
  induction nonces with
  | nil => simp [check_nonce_length]
  | cons n rest ih =>
    by_cases hbad : n.utf8ByteSize < min_byte_len ∨ n.utf8ByteSize > max_byte_len
    · have hc : (n.utf8ByteSize < min_byte_len || n.utf8ByteSize > max_byte_len)
          = true := by
        rcases hbad with h | h <;> simp [h]
      simp only [check_nonce_length, hc, if_true, List.mem_cons]
      constructor
      · intro h; exact absurd h (by simp)
      · intro h
        have := h n (Or.inl rfl)
        omega
    · push_neg at hbad
      have hc : (n.utf8ByteSize < min_byte_len || n.utf8ByteSize > max_byte_len)
          = false := by
        simp only [Bool.or_eq_false_iff, decide_eq_false_iff_not]
        omega
      have hstep : check_nonce_length (n :: rest) = check_nonce_length rest := by
        simp [check_nonce_length, hc]
      rw [hstep, ih]
      constructor
      · intro h m hm
        rcases List.mem_cons.mp hm with rfl | hm2
        · exact hbad
        · exact h m hm2
      · intro h m hm
        exact h m (List.mem_cons_of_mem n hm)

/-- When no key of the key set carries the sought key id, the scan loop of
`_decode_and_validate_oidc` completes without a match. -/
theorem find_rsa_key_eq_none (keys : List Jwk) (k : String)
    (h : ∀ key ∈ keys, key.kid ≠ some k) :
    find_rsa_key keys (some k) = .ok none := by
  induction keys with
  | nil => rfl
  | cons key rest ih =>
    have hk : ¬ key.kid = some k := h key (by simp)
    simp only [find_rsa_key, if_neg hk]
    exact ih fun key2 hm => h key2 (by simp [hm])

/-- When the header has no kid entry and the key set is non-empty, the
first loop iteration raises `KeyError`. -/
theorem find_rsa_key_no_kid (keys : List Jwk) (h : keys ≠ []) :
    find_rsa_key keys none = .error (.keyError "kid") := by
  cases keys with
  | nil => exact absurd rfl h
  | cons key rest => rfl

/-! ## Claim theorems -/

/-- Claim C1 (code bug): for a PKI token whose chain passes the
root-fingerprint check and parses, with a valid leaf, a matching embedded
root and an intermediate certificate whose not-after instant (10) lies
before the current instant (50), `validate_token` does NOT surface
`InvalidCertificateChainError`: the generic except-clause of
`_decode_and_validate_pki` re-wraps it, so the call fails with the base
`VtpmValidationError` whose message merely embeds the text naming the
intermediate certificate. -/
theorem c1_expired_intermediate_is_wrapped :
    validate_token defaultCfg env_c1 50 header_c1
      = (.error (.vtpmValidationError
          "Unexpected error during validation: Intermediate certificate is not valid"),
        [.httpGet (defaultCfg.expected_issuer ++ defaultCfg.pki_endpoint),
          .extractCerts]) := by
  rfl

/-- Claim C2 (code bug): the nonce length check accepts byte lengths 10
and 74 and rejects 9 and 75, but the error message raised for a rejected
nonce names only the offending nonce and the lower bound — the upper bound
74 is absent, because the second f-string of the source is a dangling
expression statement. -/
theorem c2_nonce_bounds_and_truncated_message :
    check_nonce_length [String.mk (List.replicate 10 (Char.ofNat 97))] = .ok ()
    ∧ check_nonce_length [String.mk (List.replicate 74 (Char.ofNat 97))] = .ok ()
    ∧ check_nonce_length [String.mk (List.replicate 9 (Char.ofNat 97))]
        = .error (.vtpmAttestationError
            ("Nonce \x27" ++ String.mk (List.replicate 9 (Char.ofNat 97))
              ++ "\x27 must be between 10 bytes"))
    ∧ check_nonce_length [String.mk (List.replicate 75 (Char.ofNat 97))]
        = .error (.vtpmAttestationError
            ("Nonce \x27" ++ String.mk (List.replicate 75 (Char.ofNat 97))
              ++ "\x27 must be between 10 bytes")) := by
  refine ⟨rfl, rfl, rfl, rfl⟩

/-- Claim C3: when the fetched root certificate is retrieved (status 200)
but its colon-separated uppercase-hex SHA-1 fingerprint differs from the
pinned `CERT_FINGERPRINT`, `validate_token` on the PKI path fails with
`VtpmValidationError` and the only effect performed is the root-certificate
fetch — in particular no certificate of the token header has been
extracted. -/
theorem c3_fingerprint_mismatch_rejected_before_extraction
    (cfg : VtpmValidationCfg) (env : Env) (now : Int) (h : JwtHeader)
    (halg : h.alg = some ALGO) (hsch : token_scheme h = .pki)
    (hstatus : env.pki.pki_status = 200)
    (hfp : colon_hex_upper env.pki.fetched_root_cert.sha1_fingerprint
        ≠ CERT_FINGERPRINT) :
    validate_token cfg env now h
      = (.error (.vtpmValidationError
          "Root certificate fingerprint does not match expected fingerprint."),
        [.httpGet (cfg.expected_issuer ++ cfg.pki_endpoint)])
    ∧ VEffect.extractCerts ∉ (validate_token cfg env now h).2 := by
  have heq : validate_token cfg env now h
      = (.error (.vtpmValidationError
          "Root certificate fingerprint does not match expected fingerprint."),
        [.httpGet (cfg.expected_issuer ++ cfg.pki_endpoint)]) := by
    simp [validate_token, halg, hsch, decode_and_validate_pki, hstatus, hfp]
  refine ⟨heq, ?_⟩
  rw [heq]
  simp

/-- Witness for C3 at a concrete environment whose fetched root carries a
wrong fingerprint. -/
theorem c3_witness :
    header_c1.alg = some ALGO ∧ token_scheme header_c1 = .pki
    ∧ env_c3.pki.pki_status = 200
    ∧ colon_hex_upper env_c3.pki.fetched_root_cert.sha1_fingerprint
        ≠ CERT_FINGERPRINT
    ∧ (validate_token defaultCfg env_c3 0 header_c1
        = (.error (.vtpmValidationError
            "Root certificate fingerprint does not match expected fingerprint."),
          [.httpGet (defaultCfg.expected_issuer ++ defaultCfg.pki_endpoint)])
      ∧ VEffect.extractCerts ∉ (validate_token defaultCfg env_c3 0 header_c1).2) :=
  ⟨rfl, rfl, rfl, by decide,
    c3_fingerprint_mismatch_rejected_before_extraction defaultCfg env_c3 0
      header_c1 rfl rfl rfl (by decide)⟩

/-- Claim C4: a header whose declared algorithm is not the pinned `ALGO`
makes `validate_token` fail with the invalid-algorithm
`VtpmValidationError` with an empty effect list — no fetch and no
certificate or key work happens, on the PKI path and the OIDC path alike. -/
theorem c4_unsupported_algorithm_rejected_before_any_work
    (cfg : VtpmValidationCfg) (env : Env) (now : Int) (h : JwtHeader)
    (halg : h.alg ≠ some ALGO) :
    validate_token cfg env now h
      = (.error (.vtpmValidationError
          ("Invalid algorithm: got " ++ py_str_opt h.alg ++ ", ")), []) := by
  simp [validate_token, halg]

/-- Witness for C4 at a concrete HS256 header. -/
theorem c4_witness :
    header_hs256.alg ≠ some ALGO
    ∧ validate_token defaultCfg env_c1 0 header_hs256
      = (.error (.vtpmValidationError
          ("Invalid algorithm: got " ++ py_str_opt header_hs256.alg ++ ", ")),
        []) :=
  ⟨by decide,
    c4_unsupported_algorithm_rejected_before_any_work defaultCfg env_c1 0
      header_hs256 (by decide)⟩

/-- Claim C5: with `simulate` set, `get_token` returns exactly the
pre-provisioned simulated-token string for every nonce list passing the
length check and every audience and token type, and performs no socket or
network effect. -/
theorem c5_simulate_returns_fixed_token (self : Vtpm) (env : SockEnv)
    (nonces : List String) (audience token_type : String)
    (hsim : self.simulate = true)
    (hn : ∀ n ∈ nonces,
      min_byte_len ≤ n.utf8ByteSize ∧ n.utf8ByteSize ≤ max_byte_len) :
    get_token self env nonces audience token_type = (.ok self.sim_token, []) := by
  have hok : check_nonce_length nonces = .ok () :=
    (check_nonce_length_ok_iff nonces).mpr hn
  simp [get_token, hok, hsim]

/-- Witness for C5: the scenario of the spec with a 10-byte nonce. -/
theorem c5_witness :
    vtpm_sim.simulate = true
    ∧ (∀ n ∈ ["abcdefghij"],
        min_byte_len ≤ n.utf8ByteSize ∧ n.utf8ByteSize ≤ max_byte_len)
    ∧ get_token vtpm_sim sock_env_ok ["abcdefghij"] "https://example.test" "OIDC"
      = (.ok vtpm_sim.sim_token, []) :=
  ⟨rfl, by decide,
    c5_simulate_returns_fixed_token vtpm_sim sock_env_ok ["abcdefghij"]
      "https://example.test" "OIDC" rfl (by decide)⟩

/-- Claim C6, counterexample: in non-simulation mode, when the service
answers a non-success status (500), `get_token` raises and returns control
with NO close of the connection — refuting the claim that the connection is
closed on every exit path. -/
theorem c6_counterexample_no_close_on_error_status :
    (get_token vtpm_real sock_env_500 ["abcdefghij"]
        "https://sts.google.com" "OIDC").1
      = .error (.vtpmAttestationError
          "Failed to get attestation response: 500 Internal Server Error")
    ∧ AttEffect.closeConn
        ∉ (get_token vtpm_real sock_env_500 ["abcdefghij"]
            "https://sts.google.com" "OIDC").2 := by
  refine ⟨rfl, ?_⟩
  decide

/-- Claim C6, amended: in non-simulation mode the connection is closed
before returning exactly on the success exit path (connect succeeded, the
request and the read of the response succeeded, status 200); on a non-200
status or a transport error the connection is left open.  Every call does
open its own fresh socket, so no connection is reused across calls. -/
theorem c6_amended_close_only_on_success (self : Vtpm) (env : SockEnv)
    (nonces : List String) (audience token_type : String)
    (hsim : self.simulate = false)
    (hok : check_nonce_length nonces = .ok ()) :
    (AttEffect.closeConn ∈ (get_token self env nonces audience token_type).2
      ↔ env.connect_error = none ∧ env.request_error = none ∧ env.status = 200)
    ∧ AttEffect.socketOpen ∈ (get_token self env nonces audience token_type).2 := by
  cases hc : env.connect_error with
  | some m => simp [get_token, hok, hsim, hc]
  | none =>
    cases hr : env.request_error with
    | some m => simp [get_token, hok, hsim, hc, hr]
    | none =>
      by_cases hs : env.status = 200
      · simp [get_token, hok, hsim, hc, hr, hs]
      · simp [get_token, hok, hsim, hc, hr, hs]

/-- Witness for C6 (amended) at a concrete successful call. -/
theorem c6_witness :
    vtpm_real.simulate = false
    ∧ check_nonce_length ["abcdefghij"] = .ok ()
    ∧ ((AttEffect.closeConn
          ∈ (get_token vtpm_real sock_env_ok ["abcdefghij"]
              "https://sts.google.com" "OIDC").2
        ↔ sock_env_ok.connect_error = none ∧ sock_env_ok.request_error = none
            ∧ sock_env_ok.status = 200)
      ∧ AttEffect.socketOpen
          ∈ (get_token vtpm_real sock_env_ok ["abcdefghij"]
              "https://sts.google.com" "OIDC").2) :=
  ⟨rfl, rfl,
    c6_amended_close_only_on_success vtpm_real sock_env_ok ["abcdefghij"]
      "https://sts.google.com" "OIDC" rfl rfl⟩

/-- Claim C7, counterexample: a 404 on the discovery-metadata fetch makes
`validate_token` on the OIDC path raise `requests.exceptions.HTTPError`,
which is NOT an instance of the domain `VtpmValidationError` — refuting the
claim that a non-200 fetch fails with the domain validation-error type. -/
theorem c7_counterexample_http_error_not_domain_error :
    (validate_token defaultCfg env_c7 0 header_oidc).1
      = .error (.httpError "Failed to fetch well known file: 404")
    ∧ is_vtpm_validation_error
        (.httpError "Failed to fetch well known file: 404") = false :=
  ⟨rfl, rfl⟩

/-- Claim C7, amended: a non-200 response when fetching the discovery
metadata, or when fetching the key set, makes `validate_token` fail — but
with `requests.exceptions.HTTPError` (the fetch helpers raise it and no
try-block re-wraps it on the OIDC path), which is not the domain
`VtpmValidationError` type. -/
theorem c7_amended_non200_fetch_raises_http_error
    (cfg : VtpmValidationCfg) (env : Env) (now : Int) (h : JwtHeader)
    (halg : h.alg = some ALGO) (hsch : token_scheme h = .oidc) :
    (env.oidc.well_known_status ≠ 200 →
      validate_token cfg env now h
        = (.error (.httpError ("Failed to fetch well known file: "
            ++ toString env.oidc.well_known_status)),
          [.httpGet (cfg.expected_issuer ++ cfg.oidc_endpoint)]))
    ∧ (env.oidc.well_known_status = 200 → env.oidc.jwks_status ≠ 200 →
      validate_token cfg env now h
        = (.error (.httpError ("Failed to fetch JWKS: "
            ++ toString env.oidc.jwks_status)),
          [.httpGet (cfg.expected_issuer ++ cfg.oidc_endpoint),
            .httpGet env.oidc.jwks_uri]))
    ∧ ∀ m, is_vtpm_validation_error (.httpError m) = false := by
  refine ⟨?_, ?_, fun m => rfl⟩
  · intro hw
    simp [validate_token, halg, hsch, decode_and_validate_oidc, hw]
  · intro hw hj
    simp [validate_token, halg, hsch, decode_and_validate_oidc, hw, hj]

/-- Witness for C7 (amended) at the concrete 404 environment. -/
theorem c7_witness :
    header_oidc.alg = some ALGO ∧ token_scheme header_oidc = .oidc
    ∧ env_c7.oidc.well_known_status ≠ 200
    ∧ validate_token defaultCfg env_c7 0 header_oidc
      = (.error (.httpError ("Failed to fetch well known file: "
          ++ toString env_c7.oidc.well_known_status)),
        [.httpGet (defaultCfg.expected_issuer ++ defaultCfg.oidc_endpoint)]) :=
  ⟨rfl, rfl, by decide,
    (c7_amended_non200_fetch_raises_http_error defaultCfg env_c7 0 header_oidc
      rfl rfl).1 (by decide)⟩

/-- Claim C8: when both OIDC fetches succeed, the header carries a kid, and
no key of the fetched key set carries that kid, `validate_token` fails with
the key-not-found `VtpmValidationError`. -/
theorem c8_kid_not_found_raises_domain_error
    (cfg : VtpmValidationCfg) (env : Env) (now : Int) (h : JwtHeader)
    (k : String)
    (halg : h.alg = some ALGO) (hsch : token_scheme h = .oidc)
    (hkid : h.kid = some k)
    (hw : env.oidc.well_known_status = 200) (hj : env.oidc.jwks_status = 200)
    (hmiss : ∀ key ∈ env.oidc.jwks_keys, key.kid ≠ some k) :
    (validate_token cfg env now h).1
      = .error (.vtpmValidationError
          "Unable to find appropriate key id (kid) in header") := by
  have hfind := find_rsa_key_eq_none env.oidc.jwks_keys k hmiss
  simp [validate_token, halg, hsch, decode_and_validate_oidc, hw, hj, hkid,
    hfind]

/-- Witness for C8 at a key set holding one non-matching key. -/
theorem c8_witness :
    header_oidc.alg = some ALGO ∧ token_scheme header_oidc = .oidc
    ∧ header_oidc.kid = some "abc123"
    ∧ env_c8.oidc.well_known_status = 200 ∧ env_c8.oidc.jwks_status = 200
    ∧ (∀ key ∈ env_c8.oidc.jwks_keys, key.kid ≠ some "abc123")
    ∧ (validate_token defaultCfg env_c8 0 header_oidc).1
      = .error (.vtpmValidationError
          "Unable to find appropriate key id (kid) in header") :=
  ⟨rfl, rfl, rfl, rfl, rfl, by decide,
    c8_kid_not_found_raises_domain_error defaultCfg env_c8 0 header_oidc
      "abc123" rfl rfl rfl rfl rfl (by decide)⟩

/-- Claim C9, counterexample: a header that DOES carry an x5c entry, with
the empty list as its value, is dispatched to the OIDC path (Python
truthiness of the dispatch test) — refuting the claim that PKI is selected
if and only if the header carries an x5c field. -/
theorem c9_counterexample_empty_x5c_dispatches_oidc :
    header_empty_x5c.x5c = some []
    ∧ token_scheme header_empty_x5c = .oidc
    ∧ validate_token defaultCfg env_c7 0 header_empty_x5c
      = (.error (.httpError "Failed to fetch well known file: 404"),
        [.httpGet (defaultCfg.expected_issuer ++ defaultCfg.oidc_endpoint)]) :=
  ⟨rfl, rfl, rfl⟩

/-- Claim C9, amended: after the algorithm check, `validate_token`
dispatches to the PKI path if and only if the header carries a NON-EMPTY
x5c list, and to the OIDC path otherwise; the dispatch decision
(`token_scheme`) is a function of the header alone — the payload is not
an input of the decision. -/
theorem c9_amended_dispatch_on_nonempty_x5c (h : JwtHeader) :
    (token_scheme h = .pki ↔ ∃ l, h.x5c = some l ∧ l ≠ [])
    ∧ (∀ (cfg : VtpmValidationCfg) (env : Env) (now : Int),
        h.alg = some ALGO → token_scheme h = .pki →
          validate_token cfg env now h
            = decode_and_validate_pki cfg env.pki now h)
    ∧ (∀ (cfg : VtpmValidationCfg) (env : Env) (now : Int),
        h.alg = some ALGO → token_scheme h = .oidc →
          validate_token cfg env now h
            = decode_and_validate_oidc cfg env.oidc h) := by
  refine ⟨?_, ?_, ?_⟩
  · cases hx : h.x5c with
    | none => simp [token_scheme, hx]
    | some l =>
      cases l with
      | nil => simp [token_scheme, hx]
      | cons a t => simp [token_scheme, hx]
  · intro cfg env now halg hsch
    simp [validate_token, halg, hsch]
  · intro cfg env now halg hsch
    simp [validate_token, halg, hsch]

/-- Witness for C9 (amended) at a concrete PKI header. -/
theorem c9_witness :
    (token_scheme header_c1 = .pki ↔ ∃ l, header_c1.x5c = some l ∧ l ≠ [])
    ∧ header_c1.alg = some ALGO
    ∧ validate_token defaultCfg env_c1 50 header_c1
      = decode_and_validate_pki defaultCfg env_c1.pki 50 header_c1 :=
  ⟨(c9_amended_dispatch_on_nonempty_x5c header_c1).1, rfl,
    (c9_amended_dispatch_on_nonempty_x5c header_c1).2.1 defaultCfg env_c1 50
      rfl rfl⟩

/-- Claim C10, counterexample: with an EMPTY fetched key set, a token whose
header lacks a kid makes `validate_token` fail with the key-not-found
`VtpmValidationError` — the header is never subscripted, so no raw
`KeyError` is raised; this refutes the claim that every kid-less token
escapes with a raw `KeyError`. -/
theorem c10_counterexample_empty_keyset_no_keyerror :
    header_no_kid.kid = none
    ∧ (validate_token defaultCfg env_c1 0 header_no_kid).1
      = .error (.vtpmValidationError
          "Unable to find appropriate key id (kid) in header")
    ∧ is_vtpm_validation_error
        (.vtpmValidationError "Unable to find appropriate key id (kid) in header")
      = true :=
  ⟨rfl, rfl, rfl⟩

/-- Claim C10, amended: when the fetched key set is non-empty, the scan
loop subscripts the header on its first iteration, so a token whose header
lacks a kid makes `validate_token` escape with a raw `KeyError`, which is
not an instance of `VtpmValidationError` (when the key set is empty the
loop body never runs and the key-not-found `VtpmValidationError` is raised
instead). -/
theorem c10_amended_keyerror_when_keyset_nonempty
    (cfg : VtpmValidationCfg) (env : Env) (now : Int) (h : JwtHeader)
    (halg : h.alg = some ALGO) (hsch : token_scheme h = .oidc)
    (hkid : h.kid = none)
    (hw : env.oidc.well_known_status = 200) (hj : env.oidc.jwks_status = 200)
    (hne : env.oidc.jwks_keys ≠ []) :
    (validate_token cfg env now h).1 = .error (.keyError "kid")
    ∧ is_vtpm_validation_error (.keyError "kid") = false := by
  have hfind := find_rsa_key_no_kid env.oidc.jwks_keys hne
  refine ⟨?_, rfl⟩
  simp [validate_token, halg, hsch, decode_and_validate_oidc, hw, hj, hkid,
    hfind]

/-- Witness for C10 (amended) at a non-empty key set. -/
theorem c10_witness :
    header_no_kid.alg = some ALGO ∧ token_scheme header_no_kid = .oidc
    ∧ header_no_kid.kid = none
    ∧ env_c10.oidc.well_known_status = 200 ∧ env_c10.oidc.jwks_status = 200
    ∧ env_c10.oidc.jwks_keys ≠ []
    ∧ ((validate_token defaultCfg env_c10 0 header_no_kid).1
        = .error (.keyError "kid")
      ∧ is_vtpm_validation_error (.keyError "kid") = false) :=
  ⟨rfl, rfl, rfl, rfl, rfl, by decide,
    c10_amended_keyerror_when_keyset_nonempty defaultCfg env_c10 0
      header_no_kid rfl rfl rfl rfl rfl (by decide)⟩
